import Mathlib

/-!
Verification of `backend/search_tools.py`: the course search tool, the course
outline tool and the tool manager.  Python objects are embedded shallowly:
optional arguments become `Option`, Python truthiness tests become explicit
boolean predicates, mutation of `self.last_sources` becomes explicit state
passing, and `raise ValueError` becomes `Except.error`.
-/

namespace SearchTools

/-- Python truthiness of an optional string: `None` and `""` are falsy. -/
def optStrTruthy : Option String → Bool
  | some s => s != ""
  | none => false

/-- Python truthiness of an optional integer: `None` and `0` are falsy. -/
def optIntTruthy : Option Int → Bool
  | some n => n != 0
  | none => false

/-- Metadata of one content chunk, as read by `CourseSearchTool._format_results`
via `meta.get('course_title', 'unknown')` and `meta.get('lesson_number')`.
`none` models an absent key. -/
structure ChunkMeta where
  course_title : Option String
  lesson_number : Option Int
deriving Repr, DecidableEq

/-- The `SearchResults` value exchanged at the `VectorStore.search` boundary:
parallel lists of documents and metadata, plus an optional error string
(`backend/vector_store.py`, used by `search_tools.py`).  Distances are carried
but never read by `search_tools.py`. -/
structure SearchResults where
  documents : List String
  metadata : List ChunkMeta
  distances : List Float
  error : Option String

/-- Modelled from the spec: `SearchResults.is_empty` lives in
`backend/vector_store.py`, which is outside the provided sources; per the spec
(§3) emptiness means "no hits", and the vector-store tests pin it to
`len(documents) == 0`. -/
def SearchResults.is_empty (r : SearchResults) : Bool :=
  r.documents.isEmpty

/-- One entry of `last_sources`: the dict `{"text": ..., "link"?: ...}` built in
`_format_results`; `link = none` models an absent `"link"` key. -/
structure SourceInfo where
  text : String
  link : Option String
deriving Repr, DecidableEq

/-- The slice of the `VectorStore` interface that `search_tools.py` calls.
`backend/vector_store.py` is outside the provided sources, so the store is kept
abstract: theorems quantify over it and witnesses instantiate it. -/
structure VectorStore where
  search : String → Option String → Option Int → SearchResults
  get_lesson_link : String → Int → Option String

namespace CourseSearchTool

/-- The context header `[<course_title>` + optional ` - Lesson <n>` + `]`
followed by the document text: one iteration of the loop in
`CourseSearchTool._format_results` (the `formatted` list). -/
def renderHit (doc : String) (meta : ChunkMeta) : String :=
  let course_title := meta.course_title.getD "unknown"
  let header := "[" ++ course_title ++
    (match meta.lesson_number with
     | some n => " - Lesson " ++ toString n
     | none => "") ++ "]"
  header ++ "\n" ++ doc

/-- The source dict built for one hit in `CourseSearchTool._format_results`
(the `sources` list): text = course title, optionally suffixed with the lesson
number; the `"link"` key is added only when `get_lesson_link` was consulted
(lesson number present and course title not the `'unknown'` placeholder) and
returned a truthy value. -/
def citeHit (store : VectorStore) (meta : ChunkMeta) : SourceInfo :=
  let course_title := meta.course_title.getD "unknown"
  let source_text := course_title ++
    (match meta.lesson_number with
     | some n => " - Lesson " ++ toString n
     | none => "")
  let lesson_link : Option String :=
    match meta.lesson_number with
    | some n => if course_title != "unknown" then store.get_lesson_link course_title n else none
    | none => none
  { text := source_text,
    link := match lesson_link with
            | some l => if l != "" then some l else none
            | none => none }

/-- `CourseSearchTool._format_results`: renders every `(doc, meta)` pair of
`zip(results.documents, results.metadata)`, joins the rendered hits with a
blank line, and produces the sources list assigned to `self.last_sources`
(the source builds both lists in one pass over the same zip). -/
def format_results (store : VectorStore) (results : SearchResults) :
    String × List SourceInfo :=
  let pairs := results.documents.zip results.metadata
  (String.intercalate "\n\n" (pairs.map (fun p => renderHit p.1 p.2)),
   pairs.map (fun p => citeHit store p.2))

/-- `CourseSearchTool.execute`.  `last_sources` is the value of
`self.last_sources` before the call; the returned pair is (result string, value
of `self.last_sources` after the call).  The error and empty branches return
without touching `self.last_sources`; only `_format_results` reassigns it.
The `if results.error:` / `if course_name:` / `if lesson_number:` tests are
Python truthiness tests. -/
def execute (store : VectorStore) (last_sources : List SourceInfo)
    (query : String) (course_name : Option String) (lesson_number : Option Int) :
    String × List SourceInfo :=
  let results := store.search query course_name lesson_number
  if optStrTruthy results.error then
    (results.error.getD "", last_sources)
  else if results.is_empty then
    let filter_info :=
      (if optStrTruthy course_name then
        " in course '" ++ course_name.getD "" ++ "'" else "") ++
      (if optIntTruthy lesson_number then
        " in lesson " ++ toString (lesson_number.getD 0) else "")
    ("No relevant content found" ++ filter_info ++ ".", last_sources)
  else
    format_results store results

end CourseSearchTool

/-- Metadata of one lesson as stored in the catalog's `lessons_json` array and
read by `CourseOutlineTool._format_outline` via `lesson.get(...)`; `none`
models an absent key. -/
structure LessonMeta where
  lesson_number : Option Int
  lesson_title : Option String
  lesson_link : Option String
deriving Repr, DecidableEq

/-- Course metadata map passed to `CourseOutlineTool._format_outline`, read via
`metadata.get('title', 'Unknown Course')`, `metadata.get('course_link', '')`,
`metadata.get('instructor', '')` and `metadata.get('lessons_json', '[]')`. -/
structure CourseMeta where
  title : Option String
  course_link : Option String
  instructor : Option String
  lessons_json : Option String
deriving Repr, DecidableEq

namespace CourseOutlineTool

/-- The sort key `lambda x: x.get('lesson_number', 0)` used by
`sorted(lessons, ...)` in `CourseOutlineTool._format_outline`. -/
def lessonSortKey (lesson : LessonMeta) : Int :=
  lesson.lesson_number.getD 0

/-- Comparison by `lessonSortKey`; `sorted(lessons, key=...)` is a stable
ascending sort under this relation. -/
def lessonLe (a b : LessonMeta) : Bool :=
  decide (lessonSortKey a ≤ lessonSortKey b)

/-- The lines appended to `outline_parts` for one lesson in
`CourseOutlineTool._format_outline`: one bullet with lesson number (or `N/A`)
and title (or `Untitled Lesson`), plus an indented link line when the lesson
link is truthy. -/
def renderLessonLines (lesson : LessonMeta) : List String :=
  let lesson_num := match lesson.lesson_number with
    | some n => toString n
    | none => "N/A"
  let lesson_title := lesson.lesson_title.getD "Untitled Lesson"
  let lesson_link := lesson.lesson_link.getD ""
  if lesson_link != "" then
    ["• Lesson " ++ lesson_num ++ ": " ++ lesson_title, "  Link: " ++ lesson_link]
  else
    ["• Lesson " ++ lesson_num ++ ": " ++ lesson_title]

/-- The parts appended to `outline_parts` before the lessons section in
`CourseOutlineTool._format_outline`: bolded title, then the course link and the
instructor lines when those values are truthy. -/
def header_parts (metadata : CourseMeta) : List String :=
  let course_title := metadata.title.getD "Unknown Course"
  let course_link := metadata.course_link.getD ""
  let instructor := metadata.instructor.getD ""
  (if course_link != "" then
    ["**" ++ course_title ++ "**", "Course Link: " ++ course_link]
   else
    ["**" ++ course_title ++ "**"]) ++
  (if instructor != "" then ["Instructor: " ++ instructor] else [])

/-- The full `outline_parts` list built by `CourseOutlineTool._format_outline`.
`parseLessons` abstracts the Python standard-library call `json.loads`
(external to the repository): `none` models a raised `json.JSONDecodeError`,
which the source catches by setting `lessons = []`.  `sorted(...)` is a stable
ascending sort by `lessonSortKey`, embedded as `List.mergeSort`. -/
def outline_parts (parseLessons : String → Option (List LessonMeta))
    (metadata : CourseMeta) : List String :=
  let lessons_json := metadata.lessons_json.getD "[]"
  let lessons := (parseLessons lessons_json).getD []
  header_parts metadata ++
  (if !lessons.isEmpty then
    ("\n**Course Outline (" ++ toString lessons.length ++ " lessons):**") ::
      (lessons.mergeSort lessonLe).flatMap renderLessonLines
   else
    ["\nNo lesson information available."])

/-- `CourseOutlineTool._format_outline`: `'\n'.join(outline_parts)`. -/
def format_outline (parseLessons : String → Option (List LessonMeta))
    (metadata : CourseMeta) : String :=
  String.intercalate "\n" (outline_parts parseLessons metadata)

end CourseOutlineTool

/-- A keyword-argument value forwarded by `ToolManager.execute_tool` via
`**kwargs`. -/
inductive PyValue where
  | str : String → PyValue
  | int : Int → PyValue
  | null : PyValue
deriving Repr, DecidableEq

/-- The `**kwargs` of a tool call. -/
def ToolArgs : Type := List (String × PyValue)

/-- The duck-typed surface of a registered tool that `ToolManager` touches:
`get_tool_definition().get("name")`, `execute(**kwargs)`, and the optional
`last_sources` attribute (`has_last_sources` models `hasattr`). -/
structure RegTool where
  tool_def_name : Option String
  run : ToolArgs → String
  has_last_sources : Bool
  last_sources : List SourceInfo

/-- Lookup in a Python dict modelled as an insertion-ordered association
list. -/
def dictLookup {α : Type} (k : String) : List (String × α) → Option α
  | [] => none
  | p :: rest => if p.1 = k then some p.2 else dictLookup k rest

/-- Assignment `d[k] = v` on a Python dict: replaces in place when the key
exists (keeping its position), otherwise appends. -/
def dictInsert {α : Type} (k : String) (v : α) : List (String × α) → List (String × α)
  | [] => [(k, v)]
  | p :: rest => if p.1 = k then (k, v) :: rest else p :: dictInsert k v rest

/-- `ToolManager`: its `self.tools` dict. -/
structure ToolManager where
  tools : List (String × RegTool)

namespace ToolManager

/-- `ToolManager.register_tool`: reads the definition's `name`; the Python
`if not tool_name: raise ValueError(...)` (a truthiness test) becomes
`Except.error`; otherwise `self.tools[tool_name] = tool`. -/
def register_tool (m : ToolManager) (tool : RegTool) : Except String ToolManager :=
  if optStrTruthy tool.tool_def_name then
    Except.ok ⟨dictInsert (tool.tool_def_name.getD "") tool m.tools⟩
  else
    Except.error "Tool must have a 'name' in its definition"

/-- `ToolManager.execute_tool`: sentinel string for an unknown name, otherwise
forwards the kwargs to the registered tool's `execute`. -/
def execute_tool (m : ToolManager) (tool_name : String) (kwargs : ToolArgs) : String :=
  match dictLookup tool_name m.tools with
  | none => "Tool '" ++ tool_name ++ "' not found"
  | some tool => tool.run kwargs

/-- The loop of `ToolManager.get_last_sources` over `self.tools.values()`:
returns the first `last_sources` that exists and is truthy (non-empty). -/
def firstSources : List (String × RegTool) → List SourceInfo
  | [] => []
  | p :: rest =>
    if p.2.has_last_sources && !p.2.last_sources.isEmpty then p.2.last_sources
    else firstSources rest

/-- `ToolManager.get_last_sources`. -/
def get_last_sources (m : ToolManager) : List SourceInfo :=
  firstSources m.tools

/-- `ToolManager.reset_sources`: sets `tool.last_sources = []` on every tool
that has the attribute. -/
def reset_sources (m : ToolManager) : ToolManager :=
  ⟨m.tools.map (fun p =>
    if p.2.has_last_sources then (p.1, { p.2 with last_sources := [] }) else p)⟩

end ToolManager

/-! Concrete fixtures used to instantiate the theorems below. -/

/-- A store whose search finds nothing and reports no error. -/
def emptyStore : VectorStore :=
  ⟨fun _ _ _ => ⟨[], [], [], none⟩, fun _ _ => none⟩

/-- A store whose search fails with a non-empty error message. -/
def errStore : VectorStore :=
  ⟨fun _ _ _ => ⟨[], [], [], some "Database connection failed"⟩, fun _ _ => none⟩

/-- A store whose search result carries the empty string as its error. -/
def blankErrStore : VectorStore :=
  ⟨fun _ _ _ => ⟨[], [], [], some ""⟩, fun _ _ => none⟩

/-- A store whose search returns the two hits of the spec's Scenario C. -/
def twoHitStore : VectorStore :=
  ⟨fun _ _ _ =>
    ⟨["doc one", "doc two"],
     [⟨some "Intro to MCP", some 1⟩, ⟨some "Web Dev", some 2⟩],
     [0.1, 0.2], none⟩,
   fun _ _ => none⟩

/-- A citation left over from an earlier successful search. -/
def oldSource : SourceInfo := ⟨"Stale Course - Lesson 9", none⟩

/-- A named tool. -/
def toolOne : RegTool := ⟨some "dup_tool", fun _ => "result one", false, []⟩

/-- A second tool carrying the same name as `toolOne`. -/
def toolTwo : RegTool := ⟨some "dup_tool", fun _ => "result two", false, []⟩

/-- A tool whose definition has no `name` key. -/
def namelessTool : RegTool := ⟨none, fun _ => "unnamed", false, []⟩

/-- A search tool whose `last_sources` still holds a citation. -/
def searchToolReg : RegTool :=
  ⟨some "search_course_content", fun _ => "searched", true, [oldSource]⟩

/-- A freshly constructed search tool: `CourseSearchTool.__init__` sets
`self.last_sources = []`. -/
def freshToolReg : RegTool :=
  ⟨some "search_course_content", fun _ => "searched", true, []⟩

/-- Course metadata whose `lessons_json` is not valid JSON. -/
def badJsonMeta : CourseMeta :=
  ⟨some "Test Course", none, none, some "not valid json"⟩

/-- Course metadata with a parseable two-lesson `lessons_json`. -/
def twoLessonMeta : CourseMeta :=
  ⟨some "Test Course", some "https://example.com/course", some "Ada",
   some "json array with lesson 2 before lesson 1"⟩

/-- A parse that always fails, modelling `json.JSONDecodeError`. -/
def noParse : String → Option (List LessonMeta) := fun _ => none

/-- Two lessons listed out of order, lesson 2 before lesson 1. -/
def twoLessonList : List LessonMeta :=
  [⟨some 2, some "Second", none⟩, ⟨some 1, some "First", some "https://example.com/one"⟩]

/-- A parse returning `twoLessonList`. -/
def twoLessonParse : String → Option (List LessonMeta) := fun _ => some twoLessonList

/-! Theorems settling the claims. -/

/-- C4 (amended): for every search result carrying a non-empty error string,
`CourseSearchTool.execute` returns exactly that error string, leaves
`last_sources` untouched, and performs no result formatting; the embedding is
total, so no exception is raised.  (The code's `if results.error:` is a
truthiness test, so an empty error string is not returned verbatim — see the
counterexample.) -/
theorem execute_returns_error_verbatim (store : VectorStore) (st : List SourceInfo)
    (q : String) (cn : Option String) (ln : Option Int) (e : String)
    (he : (store.search q cn ln).error = some e) (hne : e ≠ "") :
    CourseSearchTool.execute store st q cn ln = (e, st) := by
  simp [CourseSearchTool.execute, he, optStrTruthy, hne]

/-- C4 witness: a store failing with `"Database connection failed"` has that
string returned verbatim by `execute`. -/
theorem execute_returns_error_verbatim_witness :
    (errStore.search "q" none none).error = some "Database connection failed" ∧
    "Database connection failed" ≠ "" ∧
    CourseSearchTool.execute errStore [oldSource] "q" none none =
      ("Database connection failed", [oldSource]) :=
  ⟨rfl, by decide,
   execute_returns_error_verbatim errStore [oldSource] "q" none none
     "Database connection failed" rfl (by decide)⟩

/-- C4 counterexample: a search result that carries the error string `""` is
not returned verbatim — `execute` treats it as error-free (Python truthiness)
and answers `"No relevant content found."` instead. -/
theorem execute_blank_error_string_cex :
    (blankErrStore.search "q" none none).error = some "" ∧
    CourseSearchTool.execute blankErrStore [] "q" none none =
      ("No relevant content found.", []) ∧
    "No relevant content found." ≠ "" :=
  ⟨rfl, by decide, by decide⟩

/-- C2 (amended): on an empty, error-free result `execute` returns
`"No relevant content found"` suffixed with `" in course '<name>'"` when the
supplied course name is truthy (non-empty) and `" in lesson <n>"` when the
supplied lesson number is truthy (non-zero), in that order, ending with a
period; `last_sources` is untouched. -/
theorem empty_result_message_truthy_suffixes (store : VectorStore)
    (st : List SourceInfo) (q : String) (cn : Option String) (ln : Option Int)
    (hne : optStrTruthy (store.search q cn ln).error = false)
    (he : (store.search q cn ln).is_empty = true) :
    CourseSearchTool.execute store st q cn ln =
      ("No relevant content found" ++
        ((if optStrTruthy cn then " in course '" ++ cn.getD "" ++ "'" else "") ++
         (if optIntTruthy ln then " in lesson " ++ toString (ln.getD 0) else "")) ++ ".",
       st) := by
  simp [CourseSearchTool.execute, hne, he]

/-- C2 witness: course name `"MCP"` and lesson number `5` yield exactly
`"No relevant content found in course 'MCP' in lesson 5."`. -/
theorem empty_result_message_truthy_suffixes_witness :
    optStrTruthy (emptyStore.search "x" (some "MCP") (some 5)).error = false ∧
    (emptyStore.search "x" (some "MCP") (some 5)).is_empty = true ∧
    CourseSearchTool.execute emptyStore [] "x" (some "MCP") (some 5) =
      ("No relevant content found in course 'MCP' in lesson 5.", []) :=
  ⟨rfl, rfl,
   (empty_result_message_truthy_suffixes emptyStore [] "x" (some "MCP") (some 5)
     rfl rfl).trans (by decide)⟩

/-- C2 counterexample: the supplied course name `""` produces no course suffix:
the call returns `"No relevant content found."`, not the
`"No relevant content found in course ''."` the claim requires for every
supplied course name. -/
theorem empty_result_blank_course_no_suffix_cex :
    (emptyStore.search "x" (some "") none).error = none ∧
    (emptyStore.search "x" (some "") none).is_empty = true ∧
    (CourseSearchTool.execute emptyStore [] "x" (some "") none).1 =
      "No relevant content found." ∧
    "No relevant content found." ≠ "No relevant content found in course ''." :=
  ⟨rfl, rfl, by decide, by decide⟩

/-- C10: the empty-result filter suffixes are gated on truthiness, so the
falsy supplied filters `course_name = ""` and `lesson_number = 0` produce
exactly `"No relevant content found."` with no suffix. -/
theorem empty_result_falsy_filters_no_suffix (store : VectorStore)
    (st : List SourceInfo) (q : String) (cn : Option String) (ln : Option Int)
    (hne : optStrTruthy (store.search q cn ln).error = false)
    (he : (store.search q cn ln).is_empty = true)
    (hcn : cn = some "" ∨ cn = none) (hln : ln = some 0 ∨ ln = none) :
    (CourseSearchTool.execute store st q cn ln).1 = "No relevant content found." := by
  rcases hcn with h1 | h1 <;> rcases hln with h2 | h2 <;> subst h1 <;> subst h2 <;>
    simp [CourseSearchTool.execute, hne, he] <;> decide

/-- C10 witness: supplied `course_name = ""` and `lesson_number = 0` on an
empty, error-free search yield exactly `"No relevant content found."`. -/
theorem empty_result_falsy_filters_no_suffix_witness :
    optStrTruthy (emptyStore.search "x" (some "") (some 0)).error = false ∧
    (emptyStore.search "x" (some "") (some 0)).is_empty = true ∧
    (CourseSearchTool.execute emptyStore [] "x" (some "") (some 0)).1 =
      "No relevant content found." :=
  ⟨rfl, rfl,
   empty_result_falsy_filters_no_suffix emptyStore [] "x" (some "") (some 0)
     rfl rfl (Or.inl rfl) (Or.inl rfl)⟩

/-- C1 (amended): `CourseSearchTool.execute` replaces `last_sources` with the
citations derived from the call's hits — one per hit, in hit order, and
independent of the previous state — only on a non-empty, error-free result; a
call whose result carries a (truthy) error or is empty returns with
`last_sources` unchanged, so stale citations from an earlier call survive such
calls. -/
theorem execute_sources_update_characterization (store : VectorStore)
    (st st' : List SourceInfo) (q : String) (cn : Option String) (ln : Option Int) :
    ((optStrTruthy (store.search q cn ln).error = true ∨
        (store.search q cn ln).is_empty = true) →
      (CourseSearchTool.execute store st q cn ln).2 = st) ∧
    (optStrTruthy (store.search q cn ln).error = false →
      (store.search q cn ln).is_empty = false →
      (CourseSearchTool.execute store st q cn ln).2 =
        ((store.search q cn ln).documents.zip (store.search q cn ln).metadata).map
          (fun p => CourseSearchTool.citeHit store p.2) ∧
      (CourseSearchTool.execute store st q cn ln).2 =
        (CourseSearchTool.execute store st' q cn ln).2) := by
  refine ⟨?_, ?_⟩
  · intro h
    by_cases herr : optStrTruthy (store.search q cn ln).error = true
    · simp [CourseSearchTool.execute, herr]
    · have he : (store.search q cn ln).is_empty = true := by
        rcases h with h | h
        · exact absurd h herr
        · exact h
      have herr' : optStrTruthy (store.search q cn ln).error = false :=
        Bool.not_eq_true _ ▸ eq_false_of_ne_true herr
      simp [CourseSearchTool.execute, herr', he]
  · intro hne he
    constructor
    · simp [CourseSearchTool.execute, hne, he, CourseSearchTool.format_results]
    · simp [CourseSearchTool.execute, hne, he, CourseSearchTool.format_results]

/-- C1 witness: on the two-hit store a successful call replaces the stale
`last_sources` with this call's two citations, the same value it produces
starting from an empty state. -/
theorem execute_sources_update_characterization_witness :
    optStrTruthy (twoHitStore.search "q" none none).error = false ∧
    (twoHitStore.search "q" none none).is_empty = false ∧
    ((CourseSearchTool.execute twoHitStore [oldSource] "q" none none).2 =
      ((twoHitStore.search "q" none none).documents.zip
        (twoHitStore.search "q" none none).metadata).map
        (fun p => CourseSearchTool.citeHit twoHitStore p.2) ∧
     (CourseSearchTool.execute twoHitStore [oldSource] "q" none none).2 =
      (CourseSearchTool.execute twoHitStore [] "q" none none).2) :=
  ⟨rfl, rfl,
   (execute_sources_update_characterization twoHitStore [oldSource] [] "q"
     none none).2 rfl rfl⟩

/-- C1 counterexample: a call whose search result carries an error retains
the citation from an earlier call in `last_sources` instead of replacing the
stored state with this call's (empty) citations, and likewise for a call whose
result is empty. -/
theorem execute_error_keeps_stale_sources_cex :
    optStrTruthy (errStore.search "q" none none).error = true ∧
    (CourseSearchTool.execute errStore [oldSource] "q" none none).2 = [oldSource] ∧
    (emptyStore.search "q" none none).is_empty = true ∧
    (CourseSearchTool.execute emptyStore [oldSource] "q" none none).2 = [oldSource] ∧
    [oldSource] ≠ ([] : List SourceInfo) :=
  ⟨rfl, by decide, rfl, by decide, by decide⟩

/-- C5: on a non-empty, error-free result `execute` renders each hit of
`zip(documents, metadata)` as the header `[<course_title>` plus
` - Lesson <n>` when the lesson number is present plus `]`, a newline and the
document text, joins the rendered hits with a blank line, and stores one
citation per hit, in hit order, in `last_sources`. -/
theorem execute_formats_hits_and_citations (store : VectorStore)
    (st : List SourceInfo) (q : String) (cn : Option String) (ln : Option Int)
    (hne : optStrTruthy (store.search q cn ln).error = false)
    (he : (store.search q cn ln).is_empty = false) :
    CourseSearchTool.execute store st q cn ln =
      (String.intercalate "\n\n"
        (((store.search q cn ln).documents.zip (store.search q cn ln).metadata).map
          (fun p => "[" ++ p.2.course_title.getD "unknown" ++
            (match p.2.lesson_number with
             | some n => " - Lesson " ++ toString n
             | none => "") ++ "]" ++ "\n" ++ p.1)),
       ((store.search q cn ln).documents.zip (store.search q cn ln).metadata).map
        (fun p => CourseSearchTool.citeHit store p.2)) := by
  simp [CourseSearchTool.execute, hne, he, CourseSearchTool.format_results,
    CourseSearchTool.renderHit]

/-- C5 witness: the spec's Scenario C — hits
`{course_title: "Intro to MCP", lesson_number: 1}` and
`{course_title: "Web Dev", lesson_number: 2}` render as blocks headed
`[Intro to MCP - Lesson 1]` and `[Web Dev - Lesson 2]` joined by a blank line,
with two citations in the same order. -/
theorem execute_formats_hits_and_citations_witness :
    optStrTruthy (twoHitStore.search "q" none none).error = false ∧
    (twoHitStore.search "q" none none).is_empty = false ∧
    CourseSearchTool.execute twoHitStore [] "q" none none =
      ("[Intro to MCP - Lesson 1]\ndoc one\n\n[Web Dev - Lesson 2]\ndoc two",
       [⟨"Intro to MCP - Lesson 1", none⟩, ⟨"Web Dev - Lesson 2", none⟩]) :=
  ⟨rfl, rfl,
   (execute_formats_hits_and_citations twoHitStore [] "q" none none
     rfl rfl).trans (by decide)⟩

/-- Lookup after a dict assignment: the assigned key maps to the new value and
every other key is unaffected. -/
theorem dictLookup_dictInsert {α : Type} (k nm : String) (v : α)
    (l : List (String × α)) :
    dictLookup k (dictInsert nm v l) = if k = nm then some v else dictLookup k l := by
  induction l with
  | nil =>
    by_cases h : k = nm
    · subst h
      simp [dictInsert, dictLookup]
    · simp [dictInsert, dictLookup, h, Ne.symm h]
  | cons p rest ih =>
    by_cases h1 : p.1 = nm
    · by_cases h2 : k = nm
      · subst h2
        simp [dictInsert, dictLookup, h1]
      · have h3 : p.1 ≠ k := by
          rw [h1]
          exact Ne.symm h2
        simp [dictInsert, dictLookup, h1, h2, Ne.symm h2, h3]
    · by_cases h2 : p.1 = k
      · have hkn : k ≠ nm := fun hh => h1 (h2.trans hh)
        simp [dictInsert, dictLookup, h1, h2, hkn]
      · simp [dictInsert, dictLookup, h1, h2, ih]

/-- C3 (amended): `ToolManager.register_tool` rejects (with
`ValueError("Tool must have a 'name' in its definition")`, embedded as
`Except.error`) exactly the tools whose definition has no truthy `name`;
registering a name that is already present does not fail — it silently
overwrites the existing entry, leaving every other registered name intact. -/
theorem register_tool_name_check (m : ToolManager) (tool : RegTool) :
    (optStrTruthy tool.tool_def_name = false →
      ToolManager.register_tool m tool =
        Except.error "Tool must have a 'name' in its definition") ∧
    (∀ nm, tool.tool_def_name = some nm → nm ≠ "" →
      ∃ m', ToolManager.register_tool m tool = Except.ok m' ∧
        dictLookup nm m'.tools = some tool ∧
        ∀ k, k ≠ nm → dictLookup k m'.tools = dictLookup k m.tools) := by
  refine ⟨?_, ?_⟩
  · intro h
    simp [ToolManager.register_tool, h]
  · intro nm hnm hne
    have htruthy : optStrTruthy (some nm) = true := by
      simp [optStrTruthy, hne]
    refine ⟨⟨dictInsert nm tool m.tools⟩, ?_, ?_, ?_⟩
    · simp [ToolManager.register_tool, hnm, htruthy]
    · simp [dictLookup_dictInsert]
    · intro k hk
      simp [dictLookup_dictInsert, hk]

/-- C3 witness: a nameless tool is rejected with the configuration error; a
tool with the truthy name `"dup_tool"` registers successfully. -/
theorem register_tool_name_check_witness :
    optStrTruthy namelessTool.tool_def_name = false ∧
    ToolManager.register_tool ⟨[]⟩ namelessTool =
      Except.error "Tool must have a 'name' in its definition" ∧
    toolOne.tool_def_name = some "dup_tool" ∧ "dup_tool" ≠ "" ∧
    (∃ m', ToolManager.register_tool ⟨[]⟩ toolOne = Except.ok m' ∧
      dictLookup "dup_tool" m'.tools = some toolOne ∧
      ∀ k, k ≠ "dup_tool" → dictLookup k m'.tools = dictLookup k ([] : List (String × RegTool))) :=
  ⟨rfl, (register_tool_name_check ⟨[]⟩ namelessTool).1 rfl, rfl, by decide,
   (register_tool_name_check ⟨[]⟩ toolOne).2 "dup_tool" rfl (by decide)⟩

/-- C3 counterexample: registering `toolTwo`, whose name `"dup_tool"` is
already registered, does not fail — it succeeds and overwrites the existing
entry, contradicting the claim that a duplicate registration raises. -/
theorem register_duplicate_overwrites_cex :
    toolTwo.tool_def_name = some "dup_tool" ∧
    ToolManager.register_tool ⟨[("dup_tool", toolOne)]⟩ toolTwo =
      Except.ok ⟨[("dup_tool", toolTwo)]⟩ ∧
    (ToolManager.register_tool ⟨[("dup_tool", toolOne)]⟩ toolTwo).isOk = true :=
  ⟨rfl, rfl, rfl⟩

/-- C6: `ToolManager.execute_tool` returns the sentinel
`"Tool '<name>' not found"` (and raises nothing — the embedding is total) for
every name absent from the registry, and forwards the kwargs unchanged to the
registered tool's `execute`, returning its result, for every present name. -/
theorem execute_tool_dispatch (m : ToolManager) (name : String) (kwargs : ToolArgs) :
    (dictLookup name m.tools = none →
      ToolManager.execute_tool m name kwargs = "Tool '" ++ name ++ "' not found") ∧
    (∀ tool, dictLookup name m.tools = some tool →
      ToolManager.execute_tool m name kwargs = tool.run kwargs) := by
  refine ⟨?_, ?_⟩
  · intro h
    simp [ToolManager.execute_tool, h]
  · intro tool h
    simp [ToolManager.execute_tool, h]

/-- C6 witness: the empty registry answers
`"Tool 'nonexistent_tool' not found"`, and a registry holding `toolOne` under
`"dup_tool"` forwards the call to it. -/
theorem execute_tool_dispatch_witness :
    dictLookup "nonexistent_tool" (([] : List (String × RegTool))) = none ∧
    ToolManager.execute_tool ⟨[]⟩ "nonexistent_tool" [] =
      "Tool 'nonexistent_tool' not found" ∧
    dictLookup "dup_tool" [("dup_tool", toolOne)] = some toolOne ∧
    ToolManager.execute_tool ⟨[("dup_tool", toolOne)]⟩ "dup_tool" [] = toolOne.run [] :=
  ⟨rfl,
   ((execute_tool_dispatch ⟨[]⟩ "nonexistent_tool" []).1 rfl).trans (by decide),
   rfl,
   (execute_tool_dispatch ⟨[("dup_tool", toolOne)]⟩ "dup_tool" []).2 toolOne rfl⟩

/-- The `get_last_sources` loop finds nothing when every tool that has the
`last_sources` attribute holds an empty list. -/
theorem firstSources_nil_of_all_empty (l : List (String × RegTool))
    (h : ∀ p ∈ l, p.2.has_last_sources = true → p.2.last_sources = []) :
    ToolManager.firstSources l = [] := by
  induction l with
  | nil => rfl
  | cons p rest ih =>
    have hp := h p (by simp)
    by_cases hh : p.2.has_last_sources = true
    · simp [ToolManager.firstSources, hh, hp hh]
      exact ih fun q hq => h q (by simp [hq])
    · have hh' : p.2.has_last_sources = false := eq_false_of_ne_true hh
      simp [ToolManager.firstSources, hh']
      exact ih fun q hq => h q (by simp [hq])

/-- C9: after `ToolManager.reset_sources`, `get_last_sources` returns the
empty list whatever the registered tools held before; and on any manager whose
tools all carry an empty `last_sources` — as immediately after construction,
since `CourseSearchTool.__init__` sets `self.last_sources = []` —
`get_last_sources` returns the empty list. -/
theorem reset_and_fresh_sources_empty (m : ToolManager) :
    ToolManager.get_last_sources (ToolManager.reset_sources m) = [] ∧
    ((∀ p ∈ m.tools, p.2.last_sources = []) →
      ToolManager.get_last_sources m = []) := by
  refine ⟨?_, ?_⟩
  · apply firstSources_nil_of_all_empty
    intro p hp hhas
    rcases List.mem_map.mp hp with ⟨q, hq, rfl⟩
    by_cases hq2 : q.2.has_last_sources = true
    · simp [hq2]
    · have : (if q.2.has_last_sources then (q.1, { q.2 with last_sources := [] }) else q) = q := by
        simp [eq_false_of_ne_true hq2]
      rw [this] at hhas ⊢
      exact absurd hhas hq2
  · intro hall
    exact firstSources_nil_of_all_empty m.tools fun p hp _ => hall p hp

/-- C9 witness: resetting a manager whose search tool still holds a citation
empties the citation state, and a manager holding a freshly constructed search
tool reports no citations. -/
theorem reset_and_fresh_sources_empty_witness :
    ToolManager.get_last_sources
      (ToolManager.reset_sources ⟨[("search_course_content", searchToolReg)]⟩) = [] ∧
    (∀ p ∈ ([("search_course_content", freshToolReg)] : List (String × RegTool)),
      p.2.last_sources = []) ∧
    ToolManager.get_last_sources ⟨[("search_course_content", freshToolReg)]⟩ = [] :=
  ⟨(reset_and_fresh_sources_empty ⟨[("search_course_content", searchToolReg)]⟩).1,
   by rintro p hp; simp at hp; subst hp; rfl,
   (reset_and_fresh_sources_empty ⟨[("search_course_content", freshToolReg)]⟩).2
     (by rintro p hp; simp at hp; subst hp; rfl)⟩

/-- C7: when `lessons_json` does not parse (the caught `json.JSONDecodeError`
case) or parses to an empty lesson list, `_format_outline` returns normally —
the embedding is total, the source catches the decode error — and its output
is the header parts followed by the single line
`"No lesson information available."` (preceded by a blank line from the
leading `\n`), with no lesson bullets. -/
theorem format_outline_missing_lessons
    (p : String → Option (List LessonMeta)) (md : CourseMeta)
    (h : p (md.lessons_json.getD "[]") = none ∨
      p (md.lessons_json.getD "[]") = some []) :
    CourseOutlineTool.outline_parts p md =
      CourseOutlineTool.header_parts md ++ ["\nNo lesson information available."] ∧
    CourseOutlineTool.format_outline p md =
      String.intercalate "\n"
        (CourseOutlineTool.header_parts md ++ ["\nNo lesson information available."]) := by
  rcases h with h | h <;>
    exact ⟨by simp [CourseOutlineTool.outline_parts, h],
           by simp [CourseOutlineTool.format_outline, CourseOutlineTool.outline_parts, h]⟩

/-- C7 witness: unparseable `lessons_json` degrades to the
no-lesson-information outline. -/
theorem format_outline_missing_lessons_witness :
    (noParse (badJsonMeta.lessons_json.getD "[]") = none ∨
      noParse (badJsonMeta.lessons_json.getD "[]") = some []) ∧
    (CourseOutlineTool.outline_parts noParse badJsonMeta =
      CourseOutlineTool.header_parts badJsonMeta ++
        ["\nNo lesson information available."] ∧
     CourseOutlineTool.format_outline noParse badJsonMeta =
      String.intercalate "\n"
        (CourseOutlineTool.header_parts badJsonMeta ++
          ["\nNo lesson information available."])) ∧
    CourseOutlineTool.format_outline noParse badJsonMeta =
      "**Test Course**\n\nNo lesson information available." :=
  ⟨Or.inl rfl, format_outline_missing_lessons noParse badJsonMeta (Or.inl rfl),
   by decide⟩

/-- C8: when `lessons_json` parses to a non-empty lesson list, the lessons
section of `outline_parts` is a count header naming the number of lessons
followed by the bullets of a permutation of the lessons that is sorted by
lesson number (key `lesson.get('lesson_number', 0)`) in non-decreasing order,
each lesson contributing its bullet line — number and title — plus a link line
when its link is truthy (`renderLessonLines`). -/
theorem format_outline_sorted_lessons
    (p : String → Option (List LessonMeta)) (md : CourseMeta)
    (lessons : List LessonMeta)
    (hp : p (md.lessons_json.getD "[]") = some lessons) (hne : lessons ≠ []) :
    ∃ sorted : List LessonMeta,
      sorted.Perm lessons ∧
      sorted.Pairwise
        (fun a b => CourseOutlineTool.lessonSortKey a ≤ CourseOutlineTool.lessonSortKey b) ∧
      sorted.length = lessons.length ∧
      CourseOutlineTool.outline_parts p md =
        CourseOutlineTool.header_parts md ++
          ("\n**Course Outline (" ++ toString lessons.length ++ " lessons):**") ::
            sorted.flatMap CourseOutlineTool.renderLessonLines := by
  refine ⟨lessons.mergeSort CourseOutlineTool.lessonLe, ?_, ?_, ?_, ?_⟩
  · exact List.mergeSort_perm lessons _
  · have htrans : ∀ a b c : LessonMeta, CourseOutlineTool.lessonLe a b = true →
        CourseOutlineTool.lessonLe b c = true → CourseOutlineTool.lessonLe a c = true := by
      intro a b c hab hbc
      simp [CourseOutlineTool.lessonLe] at hab hbc ⊢
      omega
    have htotal : ∀ a b : LessonMeta,
        (CourseOutlineTool.lessonLe a b || CourseOutlineTool.lessonLe b a) = true := by
      intro a b
      simp [CourseOutlineTool.lessonLe]
      omega
    have h := List.sorted_mergeSort htrans htotal lessons
    exact h.imp fun hab => by simpa [CourseOutlineTool.lessonLe] using hab
  · exact (List.mergeSort_perm lessons _).length_eq
  · simp [CourseOutlineTool.outline_parts, hp, hne]

/-- C8 witness: a two-lesson list given out of order (lesson 2 before
lesson 1) renders, after the two-lesson count header, as a sorted permutation
of the lessons. -/
theorem format_outline_sorted_lessons_witness :
    twoLessonParse (twoLessonMeta.lessons_json.getD "[]") = some twoLessonList ∧
    twoLessonList ≠ [] ∧
    (∃ sorted : List LessonMeta,
      sorted.Perm twoLessonList ∧
      sorted.Pairwise
        (fun a b => CourseOutlineTool.lessonSortKey a ≤ CourseOutlineTool.lessonSortKey b) ∧
      sorted.length = twoLessonList.length ∧
      CourseOutlineTool.outline_parts twoLessonParse twoLessonMeta =
        CourseOutlineTool.header_parts twoLessonMeta ++
          ("\n**Course Outline (" ++ toString twoLessonList.length ++ " lessons):**") ::
            sorted.flatMap CourseOutlineTool.renderLessonLines) :=
  ⟨rfl, by decide,
   format_outline_sorted_lessons twoLessonParse twoLessonMeta twoLessonList rfl
     (by decide)⟩

end SearchTools
